import Mathlib

/-!
Verification development for the centralized-auth repository.

Shallow embedding of the trust and credential lifecycle engine:
 - `authenticateUser`, `verifyToken`, `revokeToken` from src/services/auth.service.js
 - `validateTokenFromHeader`, `revokeById`, `findByTokenHash` from
   src/services/token.service.js and src/models/token.model.js
 - `rotateKeys` / `revokeKeys` from the ProviderKey model
 - `verifyRequestSignature` from src/middlewares/auth.middleware.js
 - `generateBackupCode` from src/services/mfa.service.js

Conventions of the embedding:
 - UUIDs and timestamps are `Nat` (unix seconds); `new Date() > x` becomes `now > x`.
 - Cryptographic primitives are symbolic: `hashData`/`bcryptHash` are injective
   tagging functions, an asymmetric signature is a hex encoding of the pair
   (public key, data) so that it is colon-free like base64, and a JWT signature
   is the symbolic pair (secret, payload).
 - Sequelize row updates by primary key are modelled as a map over the list,
   guarded by the id.
 - Randomness (fresh token secrets, fresh record ids, Math.random draws) is
   passed in as explicit parameters.
-/

/-- sha256 hex digest (crypto.service.js `hashData`), modelled as an injective tag. -/
def hashData (data : String) : String := "sha256." ++ data

/-- The bcrypt image of a password; used to build stored `password_hash` values. -/
def bcryptHash (password : String) : String := "bcrypt." ++ password

/-- bcrypt compare (crypto.service.js `verifyPassword`): the candidate password
matches iff the stored hash is its bcrypt image. -/
def verifyPassword (password hash : String) : Bool := hash == bcryptHash password

def hexDigits : List Char := "0123456789abcdef".toList

def hexOfByte (n : Nat) : List Char :=
  [hexDigits.getD (n / 16 % 16) '0', hexDigits.getD (n % 16) '0']

/-- A colon-free encoding standing in for base64: every signature string built
from it survives the middleware's `split(':')` as a single part. -/
def hexEncode (s : String) : String :=
  String.mk (s.toList.foldr (fun c acc => hexOfByte (c.toNat % 256) ++ acc) [])

/-- Symbolic asymmetric signature: signing under the private half of the key
pair identified by its public key `pub`. -/
def rsaSign (pub data : String) : String := hexEncode (pub ++ "|" ++ data)

/-- crypto.service.js `verifySignature`: the signature is valid iff it is the
signature of `data` under the key pair of `pub`. -/
def rsaVerify (data signature pub : String) : Bool := signature == rsaSign pub data

/-- JavaScript `String.prototype.split` with a one-character separator,
on the character list. -/
def splitOnChar (sep : Char) : List Char → List (List Char)
  | [] => [[]]
  | c :: cs =>
    if c == sep then [] :: splitOnChar sep cs
    else
      match splitOnChar sep cs with
      | [] => [[c]]
      | h :: t => (c :: h) :: t

/-- JavaScript `s.split(sep)` for a one-character separator. -/
def jsSplit (s : String) (sep : Char) : List String :=
  (splitOnChar sep s.toList).map String.mk

def isPrefixOfList (pat l : List Char) : Bool :=
  match pat, l with
  | [], _ => true
  | _ :: _, [] => false
  | a :: as, b :: bs => a == b && isPrefixOfList as bs

def containsList (pat : List Char) : List Char → Bool
  | [] => pat.isEmpty
  | c :: cs => isPrefixOfList pat (c :: cs) || containsList pat cs

/-- JavaScript `s.includes(pat)`. -/
def jsIncludes (s pat : String) : Bool := containsList pat.toList s.toList

/-- JavaScript `parseInt`, restricted to the all-digit strings the system
produces; anything else is NaN, modelled as `none`. -/
def jsParseInt (s : String) : Option Nat :=
  if s.toList ≠ [] ∧ s.toList.all (fun c => c.isDigit) then
    some (s.toList.foldl (fun a c => a * 10 + (c.toNat - 48)) 0)
  else none

/-- User row (src/models/user.model.js).  `mfa_enabled`/`mfa_preferred_method`
flatten the `mfa_settings` JSON sub-record (`mfa_settings && mfa_settings.enabled`). -/
structure UserRec where
  id : Nat
  username : String
  password_hash : String
  is_active : Bool
  is_locked : Bool
  failed_attempts : Nat
  mfa_enabled : Bool
  mfa_preferred_method : String
  last_login : Option Nat
deriving DecidableEq

/-- API consumer row (src/models/consumer.model.js). -/
structure ConsumerRec where
  id : Nat
  name : String
  is_active : Bool
  allowed_ips : List String
  public_key : String
deriving DecidableEq

/-- Access token row (src/models/token.model.js). -/
structure TokenRec where
  id : Nat
  user_id : Nat
  consumer_id : Nat
  token_hash : String
  signature : String
  provider_key_id : Nat
  expires_at : Nat
  is_revoked : Bool
  revoked_at : Option Nat
deriving DecidableEq

/-- Provider signing key row (ProviderKey model). -/
structure KeyRec where
  id : Nat
  public_key : String
  private_key_encrypted : String
  key_algorithm : String
  key_version : Nat
  status : String
  valid_from : Nat
  valid_until : Option Nat
  created_by : Option Nat
deriving DecidableEq

/-- The persisted state the services read and write. -/
structure Db where
  users : List UserRec
  consumers : List ConsumerRec
  tokens : List TokenRec
  providerKeys : List KeyRec
deriving DecidableEq

/-- ConsumerModel.findByPk. -/
def findConsumer (db : Db) (consumerId : Nat) : Option ConsumerRec :=
  db.consumers.find? (fun c => c.id == consumerId)

/-- UserModel.findByUsername: `findOne({ where: { username, is_active: true } })`. -/
def findByUsername (db : Db) (username : String) : Option UserRec :=
  db.users.find? (fun u => u.username == username && u.is_active)

/-- UserModel.findByPk. -/
def findUserByPk (db : Db) (userId : Nat) : Option UserRec :=
  db.users.find? (fun u => u.id == userId)

/-- TokenModel.findByPk. -/
def findTokenByPk (db : Db) (tokenId : Nat) : Option TokenRec :=
  db.tokens.find? (fun t => t.id == tokenId)

/-- Token.findByTokenHash (token.model.js lines 103-111): lookup by
`token_hash` among rows that are not revoked and not yet expired. -/
def findByTokenHash (db : Db) (now : Nat) (tokenHash : String) : Option TokenRec :=
  db.tokens.find? (fun t => t.token_hash == tokenHash && !t.is_revoked && now < t.expires_at)

/-- Row update by primary key, as Sequelize `instance.update` performs it. -/
def updateUser (db : Db) (userId : Nat) (f : UserRec → UserRec) : Db :=
  { db with users := db.users.map (fun u => if u.id == userId then f u else u) }

/-- Consumer.isIpAllowed (consumer.model.js lines 98-118). -/
def isIpAllowed (db : Db) (consumerId : Nat) (ipAddress : String) : Bool :=
  match findConsumer db consumerId with
  | none => false
  | some c =>
    if !c.is_active then false
    else if c.allowed_ips.isEmpty then true
    else c.allowed_ips.any (fun a => a == ipAddress || jsIncludes a "/0")

/-- Payload of the JWT wrapper the broker returns (auth.service.js lines 245-252). -/
structure JwtPayload where
  sub : Nat
  username : String
  consumer : String
  token_id : Nat
  iat : Nat
  exp : Nat
deriving DecidableEq

/-- A JWT: its (decodable, untrusted) payload together with a symbolic HMAC,
the pair of the signing secret and the signed payload. -/
structure Jwt where
  payload : JwtPayload
  sig : String × JwtPayload
deriving DecidableEq

/-- jwt.sign(payload, secret). -/
def jwtSign (payload : JwtPayload) (secret : String) : Jwt :=
  ⟨payload, (secret, payload)⟩

/-- jwt.verify(token, secret), reduced to its boolean outcome. -/
def jwtVerify (t : Jwt) (secret : String) : Bool :=
  t.sig == (secret, t.payload)

/-- jwt.decode(token): reads the payload without checking the signature. -/
def jwtDecode (t : Jwt) : JwtPayload := t.payload

/-- The credentials argument of authenticateUser. -/
structure Credentials where
  username : String
  password : String
deriving DecidableEq

/-- The context argument of authenticateUser.  `signatureHeader` is carried but
never used: the signature check in authenticateUser (auth.service.js lines
54-77) is commented out ("temporarily disabled for testing"). -/
structure AuthContext where
  consumerId : Nat
  ipAddress : String
  userAgent : String
  signatureHeader : Option String
deriving DecidableEq

/-- Result shape of authenticateUser: `success`, the error `code` (absent on
success), and the issued JWT.  Roles in the success payload are not modelled. -/
structure AuthResult where
  success : Bool
  code : Option String
  token : Option Jwt
deriving DecidableEq

/-- ProviderKey.findActiveKey ("PERBAIKAN SEMENTARA" version actually executed):
`findOne({ where: { status: "active" }, order: [["key_version", "DESC"]] })`.
The validity-window conditions are commented out in the source. -/
def pickMaxVersion : List KeyRec → Option KeyRec
  | [] => none
  | k :: ks =>
    match pickMaxVersion ks with
    | none => some k
    | some m => if m.key_version > k.key_version then some m else some k

def findActiveKey (db : Db) : Option KeyRec :=
  pickMaxVersion (db.providerKeys.filter (fun k => k.status == "active"))

/-- auth.service.js `authenticateUser` (lines 26-285).

Inputs beyond the source arguments: `now` (clock), `jwtSecret`
(process.env.JWT_SECRET), `tokenValue` (the fresh random secret from
`generateRandomToken()`), `newTokenId` (the fresh UUID the insert generates).

The branch for users with `mfa_settings.enabled` (lines 143-191) reads the
identifier `mfa_code`, which is declared nowhere in the module, so in the
source it raises a ReferenceError that the surrounding try/catch (line 277)
turns into a `SYSTEM_ERROR` response; the state at that point is unchanged,
which is what the corresponding branch below returns. -/
def authenticateUser (creds : Credentials) (ctx : AuthContext) (db : Db)
    (now : Nat) (jwtSecret tokenValue : String) (newTokenId : Nat) : AuthResult × Db :=
  if creds.username = "" ∨ creds.password = "" then
    (⟨false, some "INVALID_CREDENTIALS", none⟩, db)
  else
    match findConsumer db ctx.consumerId with
    | none => (⟨false, some "INVALID_CONSUMER", none⟩, db)
    | some consumer =>
      if consumer.is_active = false then
        (⟨false, some "INVALID_CONSUMER", none⟩, db)
      else if consumer.allowed_ips ≠ [] ∧ isIpAllowed db ctx.consumerId ctx.ipAddress = false then
        (⟨false, some "UNAUTHORIZED_IP", none⟩, db)
      else
        match findByUsername db creds.username with
        | none => (⟨false, some "INVALID_USER", none⟩, db)
        | some user =>
          if user.is_locked then
            (⟨false, some "ACCOUNT_LOCKED", none⟩, db)
          else if verifyPassword creds.password user.password_hash = false then
            let db1 := updateUser db user.id
              (fun v => { v with failed_attempts := v.failed_attempts + 1 })
            if user.failed_attempts + 1 ≥ 5 then
              let db2 := updateUser db1 user.id (fun v => { v with is_locked := true })
              (⟨false, some "ACCOUNT_LOCKED", none⟩, db2)
            else
              (⟨false, some "INVALID_PASSWORD", none⟩, db1)
          else if user.mfa_enabled then
            -- line 145 `if (!mfa_code)`: ReferenceError, caught at line 277
            (⟨false, some "SYSTEM_ERROR", none⟩, db)
          else
            let db3 := updateUser db user.id
              (fun v => { v with failed_attempts := 0, last_login := some now })
            match findActiveKey db3 with
            | none => (⟨false, some "CONFIGURATION_ERROR", none⟩, db3)
            | some providerKey =>
              let tokenHash := hashData tokenValue
              let expiresAt := now + 3600
              let tokenRow : TokenRec :=
                ⟨newTokenId, user.id, consumer.id, tokenHash, "simulated-signature",
                 providerKey.id, expiresAt, false, none⟩
              let db4 := { db3 with tokens := db3.tokens ++ [tokenRow] }
              let payload : JwtPayload :=
                ⟨user.id, user.username, consumer.name, newTokenId, now, expiresAt⟩
              (⟨true, none, some (jwtSign payload jwtSecret)⟩, db4)

/-- Result shape of verifyToken. -/
structure VerifyResult where
  success : Bool
  code : Option String
  userId : Option Nat
deriving DecidableEq

/-- auth.service.js `verifyToken` (lines 293-387).  Note the stored-token
lookup is `TokenModel.findByPk(decoded.token_id)`: by the identifier decoded
from the JWT, not by a recomputed hash.  The `!decoded.token_id` falsy check
becomes `token_id = 0` under the Nat coding of ids. -/
def verifyToken (t : Jwt) (consumerId : Nat) (db : Db) (now : Nat)
    (jwtSecret : String) : VerifyResult :=
  let decoded := jwtDecode t
  if decoded.token_id = 0 then
    ⟨false, some "INVALID_TOKEN", none⟩
  else if jwtVerify t jwtSecret = false then
    ⟨false, some "INVALID_SIGNATURE", none⟩
  else
    match findTokenByPk db decoded.token_id with
    | none => ⟨false, some "TOKEN_NOT_FOUND", none⟩
    | some tokenRecord =>
      if tokenRecord.is_revoked then
        ⟨false, some "TOKEN_REVOKED", none⟩
      else if now > tokenRecord.expires_at then
        ⟨false, some "TOKEN_EXPIRED", none⟩
      else if tokenRecord.consumer_id ≠ consumerId then
        ⟨false, some "CONSUMER_MISMATCH", none⟩
      else
        match findUserByPk db tokenRecord.user_id with
        | none => ⟨false, some "USER_UNAVAILABLE", none⟩
        | some user =>
          if user.is_active = false then
            ⟨false, some "USER_UNAVAILABLE", none⟩
          else
            ⟨true, none, some user.id⟩

/-- Result shape of validateTokenFromHeader, which returns the raw token row
and user on success. -/
structure HeaderValidationResult where
  success : Bool
  code : Option String
  token : Option TokenRec
  userId : Option Nat
deriving DecidableEq

/-- token.service.js `validateTokenFromHeader` (lines 289-345): recomputes
`hashData` of the presented bearer value and looks the row up by that hash. -/
def validateTokenFromHeader (tokenHeader : Option String) (db : Db) (now : Nat) :
    HeaderValidationResult :=
  match tokenHeader with
  | none => ⟨false, some "TOKEN_MISSING", none, none⟩
  | some s =>
    match jsSplit s ' ' with
    | [p0, tokenValue] =>
      if p0 ≠ "Bearer" then ⟨false, some "INVALID_TOKEN_FORMAT", none, none⟩
      else
        let tokenHash := hashData tokenValue
        match findByTokenHash db now tokenHash with
        | none => ⟨false, some "TOKEN_NOT_FOUND", none, none⟩
        | some token =>
          match findUserByPk db token.user_id with
          | none => ⟨false, some "USER_INACTIVE", none, none⟩
          | some user =>
            if user.is_active = false then ⟨false, some "USER_INACTIVE", none, none⟩
            else ⟨true, none, some token, some user.id⟩
    | _ => ⟨false, some "INVALID_TOKEN_FORMAT", none, none⟩

/-- Token.revokeById (token.model.js lines 164-181): throws "Token not found"
for a missing id, returns `false` without touching the row when it is already
revoked, otherwise flips `is_revoked` and stamps `revoked_at`. -/
def revokeById (db : Db) (tokenId : Nat) (now : Nat) : Except String (Bool × Db) :=
  match findTokenByPk db tokenId with
  | none => .error "Token not found"
  | some token =>
    if token.is_revoked then .ok (false, db)
    else
      .ok (true, { db with tokens := db.tokens.map (fun t =>
        if t.id == tokenId then { t with is_revoked := true, revoked_at := some now } else t) })

/-- Result shape of the service-level revoke. -/
structure RevokeResult where
  success : Bool
  code : Option String
deriving DecidableEq

/-- auth.service.js `revokeToken` (lines 395-425): a thrown error is caught and
reported as SYSTEM_ERROR; a `false` from revokeById is reported as
`success: false, code: "TOKEN_NOT_FOUND"` ("Token not found or already revoked"). -/
def revokeToken (tokenId : Nat) (db : Db) (now : Nat) : RevokeResult × Db :=
  match revokeById db tokenId now with
  | .error _ => (⟨false, some "SYSTEM_ERROR"⟩, db)
  | .ok (false, db1) => (⟨false, some "TOKEN_NOT_FOUND"⟩, db1)
  | .ok (true, db1) => (⟨true, none⟩, db1)

/-- `this.max("key_version")` over the whole table, with `(null || 0)`. -/
def maxKeyVersion (ks : List KeyRec) : Nat :=
  ks.foldl (fun a k => max a k.key_version) 0

/-- The per-row part of rotation's `update({status:"inactive"}, {where:{status:"active"}})`. -/
def flipActive (k : KeyRec) : KeyRec :=
  if k.status == "active" then { k with status := "inactive" } else k

/-- ProviderKey.rotateKey (lines 117-167), acting on the key table.  The whole
body runs inside one transaction that commits or rolls back as a unit, so it is
modelled as a single state transition.  `newKeyId` is the fresh UUID, `now` the
clock; the validity window is 90 days (in seconds) from `now`. -/
def rotateKeys (ks : List KeyRec) (publicKey privateKeyEncrypted keyAlgorithm : String)
    (createdBy : Option Nat) (newKeyId now : Nat) : KeyRec × List KeyRec :=
  let newKey : KeyRec :=
    ⟨newKeyId, publicKey, privateKeyEncrypted, keyAlgorithm, maxKeyVersion ks + 1,
     "active", now, some (now + 90 * 86400), createdBy⟩
  (newKey, ks.map flipActive ++ [newKey])

/-- rotateKey on the full state: only the provider-key table changes. -/
def rotateKey (db : Db) (publicKey privateKeyEncrypted keyAlgorithm : String)
    (createdBy : Option Nat) (newKeyId now : Nat) : KeyRec × Db :=
  let r := rotateKeys db.providerKeys publicKey privateKeyEncrypted keyAlgorithm
    createdBy newKeyId now
  (r.1, { db with providerKeys := r.2 })

/-- ProviderKey.revokeKey (lines 175-189): throws "Key not found" when the id
is absent (the table is then untouched), otherwise sets the row's status to
"revoked" unconditionally. -/
def revokeKeys (ks : List KeyRec) (keyId : Nat) : List KeyRec :=
  match ks.find? (fun k => k.id == keyId) with
  | none => ks
  | some _ => ks.map (fun k => if k.id == keyId then { k with status := "revoked" } else k)

/-- The two mutating operations on the provider-key table. -/
inductive KeyOp where
  | rotate (publicKey privateKeyEncrypted keyAlgorithm : String)
      (createdBy : Option Nat) (newKeyId now : Nat)
  | revoke (keyId : Nat)

def applyKeyOp (ks : List KeyRec) : KeyOp → List KeyRec
  | .rotate pub priv alg cb nid now => (rotateKeys ks pub priv alg cb nid now).2
  | .revoke kid => revokeKeys ks kid

def applyKeyOps (ks : List KeyRec) (ops : List KeyOp) : List KeyRec :=
  ops.foldl applyKeyOp ks

/-- Outcomes of the request-signature middleware. -/
inductive SigCheck where
  | skippedNoSignature
  | invalidFormat
  | expiredSignature
  | invalidSignature
  | ok
deriving DecidableEq

/-- Sorted-key serialization of the request body
(`Object.keys(req.body).sort()` + JSON.stringify); body values are modelled as
strings. -/
def insertByKey (kv : String × String) : List (String × String) → List (String × String)
  | [] => [kv]
  | x :: xs => if kv.1 ≤ x.1 then kv :: x :: xs else x :: insertByKey kv xs

def sortByKey (l : List (String × String)) : List (String × String) :=
  l.foldr insertByKey []

def jsonField (kv : String × String) : String :=
  "\"" ++ kv.1 ++ "\":\"" ++ kv.2 ++ "\""

def jsonSorted (l : List (String × String)) : String :=
  "\x7b" ++ String.intercalate "," ((sortByKey l).map jsonField) ++ "\x7d"

/-- The canonical signed payload `timestamp:nonce:method:path:bodyStr`
(auth.middleware.js line 170), with the timestamp kept as the raw header string. -/
def canonicalSigData (timestamp nonce method path bodyStr : String) : String :=
  timestamp ++ ":" ++ nonce ++ ":" ++ method ++ ":" ++ path ++ ":" ++ bodyStr

/-- auth.middleware.js `verifyRequestSignature` (lines 117-194).

The replay check (lines 141-152) is `currentTime - signatureTime > 300`: only a
timestamp in the past by more than 300 seconds trips it.  `parseInt` of a
non-numeric timestamp yields NaN in the source, and `NaN > 300` is false, which
the `none` branch of `toNat?` mirrors. -/
def verifyRequestSignature (header : Option String) (now : Nat) (method path : String)
    (body : List (String × String)) (consumerPublicKey : String) : SigCheck :=
  match header with
  | none => SigCheck.skippedNoSignature
  | some s =>
    match jsSplit s ':' with
    | [signatureValue, timestamp, nonce] =>
      let isExpired : Bool :=
        match jsParseInt timestamp with
        | some t => decide ((now : Int) - (t : Int) > 300)
        | none => false
      if isExpired then SigCheck.expiredSignature
      else
        let bodyStr := if body.isEmpty then "" else jsonSorted body
        let data := canonicalSigData timestamp nonce method path bodyStr
        if rsaVerify data signatureValue consumerPublicKey then SigCheck.ok
        else SigCheck.invalidSignature
    | _ => SigCheck.invalidFormat

/-- The backup-code alphabet (mfa.service.js line 523). -/
def backupAlphabet : List Char := "0123456789ABCDEFGHIJKLMNOPQRSTUVWXYZ".toList

/-- mfa.service.js `generateBackupCode` (lines 522-530), with the Math.random
draws supplied by `pick` (each draw reduced mod 36 as `floor(r * 36)` is).
The loop runs 10 iterations and the `i === 5` iteration appends the hyphen
INSTEAD of a character, exactly as the source's if/else does. -/
def generateBackupCode (pick : Nat → Nat) : String :=
  (List.range 10).foldl (fun code i =>
    if i == 5 then code ++ "-"
    else code ++ String.mk [backupAlphabet.getD (pick i % 36) '0']) ""

/-- The backup-code generation loop of verifyAndEnableTOTP (lines 166-169):
pushes exactly 10 codes. -/
def generateBackupCodes (pick : Nat → Nat → Nat) : List String :=
  (List.range 10).map (fun i => generateBackupCode (pick i))

/-- Iterated wrong-password attempts: the state after `k` calls of
authenticateUser with the same credentials and context. -/
def wrongIter (creds : Credentials) (ctx : AuthContext) (now : Nat) (js tv : String)
    (tid : Nat) : Nat → Db → Db
  | 0, db => db
  | n + 1, db =>
    (authenticateUser creds ctx (wrongIter creds ctx now js tv tid n db) now js tv tid).2

/-! ## General lemmas about the embedding -/

/-- `find?` commutes with a `map` whose function preserves the predicate. -/
theorem find?_map_pres {α : Type} (p : α → Bool) (g : α → α)
    (hpres : ∀ v, p (g v) = p v) (l : List α) :
    (l.map g).find? p = (l.find? p).map g := by
  induction l with
  | nil => rfl
  | cons a tl ih =>
    cases hpa : p a with
    | true =>
      rw [List.map_cons, List.find?_cons_of_pos _ (by rw [hpres a]; exact hpa),
        List.find?_cons_of_pos _ hpa]
      rfl
    | false =>
      rw [List.map_cons, List.find?_cons_of_neg _ (by rw [hpres a, hpa]; simp),
        List.find?_cons_of_neg _ (by rw [hpa]; simp), ih]

/-- Updating a user row by id does not disturb the username lookup beyond
applying the update to the looked-up row. -/
theorem findByUsername_updateUser (db : Db) (un : String) (uid : Nat)
    (f : UserRec → UserRec)
    (hf : ∀ v, (f v).username = v.username ∧ (f v).is_active = v.is_active) :
    findByUsername (updateUser db uid f) un =
      (findByUsername db un).map (fun v => if v.id == uid then f v else v) := by
  unfold findByUsername updateUser
  exact find?_map_pres _ _ (fun v => by
    by_cases h : v.id == uid <;> simp [h, (hf v).1, (hf v).2]) _

/-- Updating a token row by id does not disturb the by-id lookup beyond
applying the update to the looked-up row. -/
theorem findTokenByPk_map (db : Db) (tid : Nat) (g : TokenRec → TokenRec)
    (hg : ∀ v, (g v).id = v.id) :
    findTokenByPk { db with tokens := db.tokens.map g } tid =
      (findTokenByPk db tid).map g := by
  unfold findTokenByPk
  exact find?_map_pres _ _ (fun v => by rw [hg v]) _

/-- Flipping active keys leaves no key with status "active". -/
theorem filter_active_map_flip (ks : List KeyRec) :
    (ks.map flipActive).filter (fun k => k.status == "active") = [] := by
  induction ks with
  | nil => rfl
  | cons a tl ih =>
    have h : ((flipActive a).status == "active") = false := by
      unfold flipActive
      cases hc : (a.status == "active") with
      | true => simp [hc]
      | false => simp [hc]
    rw [List.map_cons, List.filter_cons, h]
    simpa using ih

/-- After a rotation the active-key query returns exactly the inserted key. -/
theorem findActiveKey_rotateKey (db : Db) (pub priv alg : String) (cb : Option Nat)
    (nid now : Nat) :
    findActiveKey (rotateKey db pub priv alg cb nid now).2 =
      some (rotateKey db pub priv alg cb nid now).1 := by
  unfold findActiveKey rotateKey rotateKeys
  rw [List.filter_append, filter_active_map_flip, List.nil_append, List.filter_cons]
  rfl

/-! ## Claim theorems -/

/-- C3: for every presented token past the decode and wrapper-signature
checks, verifyToken fails closed with, in priority order, TOKEN_NOT_FOUND when
no stored row matches the decoded id, TOKEN_REVOKED when the row is revoked,
TOKEN_EXPIRED when the clock is past `expires_at`, and CONSUMER_MISMATCH when
the row was issued to a different consumer; each rejection carries
`success = false` and no user payload. -/
theorem verifyToken_fail_closed (db : Db) (now consumerId : Nat) (jwtSecret : String)
    (j : Jwt) (hid : j.payload.token_id ≠ 0) (hsig : jwtVerify j jwtSecret = true) :
    (findTokenByPk db j.payload.token_id = none →
      verifyToken j consumerId db now jwtSecret = ⟨false, some "TOKEN_NOT_FOUND", none⟩) ∧
    (∀ t, findTokenByPk db j.payload.token_id = some t →
      (t.is_revoked = true →
        verifyToken j consumerId db now jwtSecret = ⟨false, some "TOKEN_REVOKED", none⟩) ∧
      (t.is_revoked = false → now > t.expires_at →
        verifyToken j consumerId db now jwtSecret = ⟨false, some "TOKEN_EXPIRED", none⟩) ∧
      (t.is_revoked = false → ¬ now > t.expires_at → t.consumer_id ≠ consumerId →
        verifyToken j consumerId db now jwtSecret = ⟨false, some "CONSUMER_MISMATCH", none⟩)) := by
  unfold verifyToken jwtDecode
  refine ⟨fun hnone => ?_, fun t ht => ⟨fun hrev => ?_, fun hrev hexp => ?_,
    fun hrev hexp hcm => ?_⟩⟩ <;>
    simp [hid, hsig, *]

/-- A revoked token row used by witnesses. -/
def tokRevoked : TokenRec := ⟨2, 1, 10, hashData "x", "simulated-signature", 5, 2000, true, some 9⟩

/-- A live token row used by witnesses. -/
def tokLive : TokenRec := ⟨2, 1, 10, hashData "x", "simulated-signature", 5, 2000, false, none⟩

/-- An expired token row used by witnesses. -/
def tokExpired : TokenRec := ⟨2, 1, 10, hashData "x", "simulated-signature", 5, 500, false, none⟩

/-- A JWT whose payload carries token_id 2, signed with secret "s". -/
def jwtTok2 : Jwt := jwtSign ⟨1, "alice", "portal", 2, 100, 2000⟩ "s"

/-- A JWT whose payload carries token_id 3, signed with secret "s". -/
def jwtTok3 : Jwt := jwtSign ⟨1, "alice", "portal", 3, 100, 2000⟩ "s"

/-- C3 witness: concrete instantiations of each rejection case. -/
theorem verifyToken_fail_closed_witness :
    (verifyToken jwtTok3 10 ⟨[], [], [tokRevoked], []⟩ 1000 "s"
      = ⟨false, some "TOKEN_NOT_FOUND", none⟩) ∧
    (verifyToken jwtTok2 10 ⟨[], [], [tokRevoked], []⟩ 1000 "s"
      = ⟨false, some "TOKEN_REVOKED", none⟩) ∧
    (verifyToken jwtTok2 10 ⟨[], [], [tokExpired], []⟩ 1000 "s"
      = ⟨false, some "TOKEN_EXPIRED", none⟩) ∧
    (verifyToken jwtTok2 11 ⟨[], [], [tokLive], []⟩ 1000 "s"
      = ⟨false, some "CONSUMER_MISMATCH", none⟩) := by
  refine ⟨?_, ?_, ?_, ?_⟩
  · exact (verifyToken_fail_closed ⟨[], [], [tokRevoked], []⟩ 1000 10 "s" jwtTok3
      (by decide) (by decide)).1 (by decide)
  · exact ((verifyToken_fail_closed ⟨[], [], [tokRevoked], []⟩ 1000 10 "s" jwtTok2
      (by decide) (by decide)).2 tokRevoked (by decide)).1 (by decide)
  · exact (((verifyToken_fail_closed ⟨[], [], [tokExpired], []⟩ 1000 10 "s" jwtTok2
      (by decide) (by decide)).2 tokExpired (by decide)).2.1) (by decide) (by decide)
  · exact (((verifyToken_fail_closed ⟨[], [], [tokLive], []⟩ 1000 11 "s" jwtTok2
      (by decide) (by decide)).2 tokLive (by decide)).2.2) (by decide) (by decide) (by decide)

/-- C9: the ten-codes count is right, but each generated backup code is the
5-characters, hyphen, 4-characters string of length 10 — not the documented
11-character XXXXX-XXXXX — because the `i === 5` loop iteration substitutes the
hyphen for a character instead of adding it. -/
theorem backup_code_count_and_length :
    (∀ pick : Nat → Nat → Nat, (generateBackupCodes pick).length = 10) ∧
    (∀ pick : Nat → Nat, (generateBackupCode pick).length = 10) ∧
    generateBackupCode (fun _ => 0) = "00000-0000" := by
  have hlen : ∀ pick : Nat → Nat, (generateBackupCode pick).length = 10 := by
    intro pick
    have hr : List.range 10 = [0, 1, 2, 3, 4, 5, 6, 7, 8, 9] := by rfl
    have hone : ∀ c : Char, (String.mk [c]).length = 1 := fun c => rfl
    simp [generateBackupCode, hr, String.length_append, hone]
  exact ⟨fun pick => by simp [generateBackupCodes], hlen, by rfl⟩

/-- User row shared by the token-path examples. -/
def userAliceW : UserRec := ⟨1, "alice", bcryptHash "pw", true, false, 0, false, "totp", none⟩

/-- Consumer row shared by the examples. -/
def consumerW : ConsumerRec := ⟨10, "portal", true, [], "pkW"⟩

/-- Token row A: live, hash of "secretA". -/
def tokHashA : TokenRec := ⟨1, 1, 10, hashData "secretA", "simulated-signature", 5, 2000, false, none⟩

/-- Token row B: revoked, hash of "secretB". -/
def tokHashB : TokenRec := ⟨2, 1, 10, hashData "secretB", "simulated-signature", 5, 2000, true, some 100⟩

def dbIdSub : Db := ⟨[userAliceW], [consumerW], [tokHashA, tokHashB], []⟩

def payloadA : JwtPayload := ⟨1, "alice", "portal", 1, 100, 2000⟩

/-- The same claims as `payloadA` but with token row B's id embedded. -/
def payloadASwapped : JwtPayload := ⟨1, "alice", "portal", 2, 100, 2000⟩

/-- C2 counterexample: verifyToken does NOT look the stored token up by a
recomputed secret hash.  A validly-signed JWT that embeds token row B's id is
resolved to B's record (rejected as TOKEN_REVOKED, B's state), even though no
presented value hashes to B's `token_hash`; the identically-signed JWT carrying
A's id resolves to A and succeeds.  The decoded identifier alone selects the
record. -/
theorem verifyToken_id_substitution_counterexample :
    verifyToken (jwtSign payloadA "s") 10 dbIdSub 1000 "s" = ⟨true, none, some 1⟩ ∧
    verifyToken (jwtSign payloadASwapped "s") 10 dbIdSub 1000 "s"
      = ⟨false, some "TOKEN_REVOKED", none⟩ ∧
    hashData "secretA" ≠ tokHashB.token_hash := by
  decide

/-- C2 amended: only the bearer-secret path (validateTokenFromHeader)
recomputes the hash of the presented value and looks the row up by that hash;
the JWT path (verifyToken) looks the row up by the token_id decoded from the
JWT — protected by the wrapper signature, not by hash recomputation — so its
outcome is a function of the decoded token_id alone among the JWT's contents. -/
theorem token_lookup_mechanisms :
    (∀ (hdr : String) (db : Db) (now : Nat),
      (validateTokenFromHeader (some hdr) db now).success = true →
      ∃ v t, jsSplit hdr ' ' = ["Bearer", v] ∧
        (validateTokenFromHeader (some hdr) db now).token = some t ∧
        t.token_hash = hashData v ∧ t.is_revoked = false ∧ now < t.expires_at) ∧
    (∀ (db : Db) (now consumerId : Nat) (jwtSecret : String) (j1 j2 : Jwt),
      jwtVerify j1 jwtSecret = true → jwtVerify j2 jwtSecret = true →
      j1.payload.token_id = j2.payload.token_id →
      verifyToken j1 consumerId db now jwtSecret
        = verifyToken j2 consumerId db now jwtSecret) := by
  constructor
  · intro hdr db now hsucc
    simp only [validateTokenFromHeader] at hsucc ⊢
    rcases hsp : jsSplit hdr ' ' with _ | ⟨p0, _ | ⟨v, _ | _⟩⟩ <;>
      rw [hsp] at hsucc <;> try simp at hsucc
    by_cases hp0 : p0 = "Bearer"
    case neg => simp [hp0] at hsucc
    case pos =>
      subst hp0
      simp only [ne_eq, not_true_eq_false, if_false, ite_false, reduceIte] at hsucc
      refine ⟨v, ?_⟩
      rcases hft : findByTokenHash db now (hashData v) with _ | t
      · rw [hft] at hsucc; simp at hsucc
      · have hprop := List.find?_some hft
        simp only [Bool.and_eq_true, beq_iff_eq, Bool.not_eq_true', decide_eq_true_eq]
          at hprop
        rw [hft] at hsucc
        dsimp only at hsucc
        rcases hfu : findUserByPk db t.user_id with _ | u
        · rw [hfu] at hsucc; simp at hsucc
        · by_cases hua : u.is_active = false
          · rw [hfu] at hsucc; simp [hua] at hsucc
          · exact ⟨t, rfl, by simp [hft, hfu, hua], hprop.1.1, hprop.1.2, hprop.2⟩
  · intro db now consumerId jwtSecret j1 j2 h1 h2 hid
    unfold verifyToken jwtDecode
    simp [h1, h2, hid]

/-- C2 amended witness: the hash-lookup property instantiated on a concrete
header and state. -/
theorem token_lookup_mechanisms_witness :
    (validateTokenFromHeader (some "Bearer secretA") dbIdSub 1000).success = true ∧
    (∃ v t, jsSplit "Bearer secretA" ' ' = ["Bearer", v] ∧
      (validateTokenFromHeader (some "Bearer secretA") dbIdSub 1000).token = some t ∧
      t.token_hash = hashData v ∧ t.is_revoked = false ∧ 1000 < t.expires_at) :=
  ⟨by decide, token_lookup_mechanisms.1 "Bearer secretA" dbIdSub 1000 (by decide)⟩


/-- C6 counterexample: revoking the same existing token twice is NOT reported
as a success/no-op on the second call.  The first call succeeds; the second
returns `success = false` with the error code TOKEN_NOT_FOUND (message "Token
not found or already revoked"), i.e. an error report, though it does leave the
state unchanged. -/
theorem revoke_second_call_error_counterexample :
    (revokeToken 1 dbIdSub 500).1 = ⟨true, none⟩ ∧
    (revokeToken 1 (revokeToken 1 dbIdSub 500).2 600).1
      = ⟨false, some "TOKEN_NOT_FOUND"⟩ := by
  decide

/-- C6 amended: the first revoke of an existing, unrevoked token succeeds and
stamps `is_revoked`/`revoked_at`; the second call is a state-level no-op (it
returns the unchanged state and raises nothing) but reports failure with code
TOKEN_NOT_FOUND rather than a success/no-op result; at the model layer
Token.revokeById returns false for it instead of throwing. -/
theorem revoke_twice_state_noop (db : Db) (tokenId now now2 : Nat) (t : TokenRec)
    (hf : findTokenByPk db tokenId = some t) (hnr : t.is_revoked = false) :
    (revokeToken tokenId db now).1 = ⟨true, none⟩ ∧
    (∃ t1, findTokenByPk (revokeToken tokenId db now).2 tokenId = some t1 ∧
      t1.is_revoked = true ∧ t1.revoked_at = some now) ∧
    revokeById (revokeToken tokenId db now).2 tokenId now2
      = .ok (false, (revokeToken tokenId db now).2) ∧
    revokeToken tokenId (revokeToken tokenId db now).2 now2
      = (⟨false, some "TOKEN_NOT_FOUND"⟩, (revokeToken tokenId db now).2) := by
  have hid : ∀ v : TokenRec,
      ((fun x => if x.id == tokenId then
        { x with is_revoked := true, revoked_at := some now } else x) v).id = v.id := by
    intro v
    by_cases h : v.id == tokenId <;> simp [h]
  have hstep : revokeToken tokenId db now =
      (⟨true, none⟩, { db with tokens := db.tokens.map (fun x =>
        if x.id == tokenId then { x with is_revoked := true, revoked_at := some now }
        else x) }) := by
    unfold revokeToken revokeById
    rw [hf]
    simp [hnr]
  have htid : (t.id == tokenId) = true := by
    have h2 := List.find?_some hf
    simpa using h2
  have hfind : findTokenByPk (revokeToken tokenId db now).2 tokenId
      = some { t with is_revoked := true, revoked_at := some now } := by
    rw [hstep]
    rw [findTokenByPk_map db tokenId _ hid, hf]
    dsimp only [Option.map]
    rw [if_pos htid]
  refine ⟨by rw [hstep], ⟨_, hfind, rfl, rfl⟩, ?_, ?_⟩
  · show revokeById (revokeToken tokenId db now).2 tokenId now2 = _
    unfold revokeById
    rw [hfind]
    rfl
  · show revokeToken tokenId (revokeToken tokenId db now).2 now2 = _
    conv_lhs => rw [revokeToken]
    rw [show revokeById (revokeToken tokenId db now).2 tokenId now2
      = .ok (false, (revokeToken tokenId db now).2) by
        unfold revokeById
        rw [hfind]
        rfl]

/-- C6 amended witness: both calls evaluated on a concrete state. -/
theorem revoke_twice_state_noop_witness :
    (revokeToken 1 dbIdSub 500).1 = ⟨true, none⟩ ∧
    (∃ t1, findTokenByPk (revokeToken 1 dbIdSub 500).2 1 = some t1 ∧
      t1.is_revoked = true ∧ t1.revoked_at = some 500) ∧
    revokeById (revokeToken 1 dbIdSub 500).2 1 600
      = .ok (false, (revokeToken 1 dbIdSub 500).2) ∧
    revokeToken 1 (revokeToken 1 dbIdSub 500).2 600
      = (⟨false, some "TOKEN_NOT_FOUND"⟩, (revokeToken 1 dbIdSub 500).2) :=
  revoke_twice_state_noop dbIdSub 1 500 600 tokHashA (by decide) (by decide)

/-- A header whose timestamp (1301) lies 301 seconds in the future of the
verification clock (1000), carrying a signature that is valid for the canonical
payload of `POST /login` with an empty body. -/
def futureSigHeader : String := rsaSign "pkW2" "1301:n1:POST:/login:" ++ ":1301:n1"

/-- C7 counterexample: a signature whose timestamp lies more than 5 minutes in
the FUTURE is not rejected: the middleware's check is one-sided
(`now - t > 300`), so the request proceeds to the cryptographic check and, the
signature being valid, is accepted, although `|now - t| = 301 > 300`. -/
theorem future_timestamp_not_rejected :
    verifyRequestSignature (some futureSigHeader) 1000 "POST" "/login" [] "pkW2"
      = SigCheck.ok ∧
    ((1301 : Int) - (1000 : Int) > 300) := by
  exact ⟨by decide, by decide⟩

/-- C7 amended: the middleware rejects with ExpiredSignature exactly when
`now - t > 300`, i.e. only when the declared timestamp is more than 5 minutes
in the PAST — and then it does so for every signature value, before any
cryptographic check; otherwise (including arbitrarily far future timestamps)
it proceeds to verify the signature over the canonical payload. -/
theorem signature_window_past_only (s : String) (now : Nat) (method path : String)
    (body : List (String × String)) (pub : String)
    (signatureValue timestamp nonce : String) (t : Nat)
    (hsp : jsSplit s ':' = [signatureValue, timestamp, nonce])
    (hts : jsParseInt timestamp = some t) :
    ((now : Int) - (t : Int) > 300 →
      verifyRequestSignature (some s) now method path body pub
        = SigCheck.expiredSignature) ∧
    ((now : Int) - (t : Int) ≤ 300 →
      verifyRequestSignature (some s) now method path body pub =
        (if rsaVerify (canonicalSigData timestamp nonce method path
            (if body.isEmpty then "" else jsonSorted body)) signatureValue pub
         then SigCheck.ok else SigCheck.invalidSignature)) := by
  constructor
  · intro h
    simp only [verifyRequestSignature]
    rw [hsp]
    simp [hts, h]
  · intro h
    have h2 : ¬ ((now : Int) - (t : Int) > 300) := not_lt.mpr h
    simp only [verifyRequestSignature]
    rw [hsp]
    simp [hts, h2]

/-- C7 amended witness: a timestamp 301 seconds in the past is rejected as
expired even though its signature value is garbage. -/
theorem signature_window_past_only_witness :
    verifyRequestSignature (some "AAAA:699:n1") 1000 "POST" "/login" [] "pkW2"
      = SigCheck.expiredSignature ∧
    ((1000 : Int) - (699 : Int) > 300) :=
  ⟨(signature_window_past_only "AAAA:699:n1" 1000 "POST" "/login" [] "pkW2"
      "AAAA" "699" "n1" 699 (by decide) (by decide)).1 (by decide), by decide⟩

/-- C4: one rotation flips every active key to inactive, leaves non-active keys
untouched, inserts exactly one new key — active, version = max existing + 1,
validity window of 90 days starting now — and (with at most one key active
before, indeed regardless) exactly one key is active afterwards.  The source
runs the whole body in one transaction; the model is accordingly a single
state transition. -/
theorem rotateKey_single_active (db : Db) (pub priv alg : String) (cb : Option Nat)
    (nid now : Nat)
    (_hone : (db.providerKeys.filter (fun k => k.status == "active")).length ≤ 1) :
    (∀ k ∈ db.providerKeys, k.status = "active" →
      { k with status := "inactive" }
        ∈ (rotateKey db pub priv alg cb nid now).2.providerKeys) ∧
    (∀ k ∈ db.providerKeys, k.status ≠ "active" →
      k ∈ (rotateKey db pub priv alg cb nid now).2.providerKeys) ∧
    (rotateKey db pub priv alg cb nid now).1
      ∈ (rotateKey db pub priv alg cb nid now).2.providerKeys ∧
    (rotateKey db pub priv alg cb nid now).1.status = "active" ∧
    (rotateKey db pub priv alg cb nid now).1.key_version
      = maxKeyVersion db.providerKeys + 1 ∧
    (rotateKey db pub priv alg cb nid now).1.valid_from = now ∧
    (rotateKey db pub priv alg cb nid now).1.valid_until = some (now + 90 * 86400) ∧
    ((rotateKey db pub priv alg cb nid now).2.providerKeys.filter
      (fun k => k.status == "active")).length = 1 ∧
    (rotateKey db pub priv alg cb nid now).2.providerKeys.length
      = db.providerKeys.length + 1 := by
  refine ⟨?_, ?_, ?_, rfl, rfl, rfl, rfl, ?_, ?_⟩
  · intro k hk hks
    show _ ∈ (rotateKeys db.providerKeys pub priv alg cb nid now).2
    unfold rotateKeys
    apply List.mem_append_left
    have hflip : flipActive k = { k with status := "inactive" } := by
      unfold flipActive
      rw [if_pos (by rw [hks]; rfl)]
    rw [← hflip]
    exact List.mem_map_of_mem _ hk
  · intro k hk hks
    show _ ∈ (rotateKeys db.providerKeys pub priv alg cb nid now).2
    unfold rotateKeys
    apply List.mem_append_left
    have hflip : flipActive k = k := by
      unfold flipActive
      rw [if_neg (by simp [hks])]
    rw [← hflip]
    exact List.mem_map_of_mem _ hk
  · show _ ∈ (rotateKeys db.providerKeys pub priv alg cb nid now).2
    unfold rotateKeys
    exact List.mem_append_right _ (List.mem_singleton_self _)
  · show ((rotateKeys db.providerKeys pub priv alg cb nid now).2.filter _).length = 1
    unfold rotateKeys
    rw [List.filter_append, filter_active_map_flip, List.nil_append]
    rfl
  · show (rotateKeys db.providerKeys pub priv alg cb nid now).2.length = _
    unfold rotateKeys
    simp

/-- An active key used in the provider-key witnesses. -/
def keyActiveW : KeyRec := ⟨5, "pub", "enc", "RSA", 3, "active", 0, some 100, none⟩

/-- A revoked key used in the provider-key witnesses. -/
def keyRevokedW : KeyRec := ⟨6, "pub0", "enc0", "RSA", 1, "revoked", 0, some 50, none⟩

def dbKeysW : Db := ⟨[], [], [], [keyActiveW, keyRevokedW]⟩

/-- C4 witness: rotation of a concrete two-key table. -/
theorem rotateKey_single_active_witness :
    { keyActiveW with status := "inactive" }
      ∈ (rotateKey dbKeysW "p2" "e2" "RSA" none 99 500).2.providerKeys ∧
    (rotateKey dbKeysW "p2" "e2" "RSA" none 99 500).1.key_version
      = maxKeyVersion dbKeysW.providerKeys + 1 ∧
    ((rotateKey dbKeysW "p2" "e2" "RSA" none 99 500).2.providerKeys.filter
      (fun k => k.status == "active")).length = 1 := by
  obtain ⟨h1, h2, h3, h4, h5, h6, h7, h8, h9⟩ :=
    rotateKey_single_active dbKeysW "p2" "e2" "RSA" none 99 500 (by decide)
  exact ⟨h1 keyActiveW (by decide) (by decide), h5, h8⟩

/-- Setting the status of an already-revoked key to "revoked" is the identity. -/
theorem status_update_self (k : KeyRec) (hrev : k.status = "revoked") :
    { k with status := "revoked" } = k := by
  cases k
  dsimp only at hrev
  rw [hrev]

/-- Flipping an already-revoked key is the identity: rotation only touches
keys whose status is "active". -/
theorem flipActive_of_revoked (k : KeyRec) (hrev : k.status = "revoked") :
    flipActive k = k := by
  unfold flipActive
  rw [if_neg (by simp [hrev])]

/-- C8: once a key's status is "revoked" it stays "revoked" under every
sequence of rotateKey and revokeKey operations: rotation flips only active
keys, and revocation only sets status to "revoked" (or throws, leaving the
table untouched), so the revoked row itself persists unchanged. -/
theorem revoked_key_stays_revoked (ops : List KeyOp) (ks : List KeyRec) (k : KeyRec)
    (hk : k ∈ ks) (hrev : k.status = "revoked") :
    k ∈ applyKeyOps ks ops ∧ k.status = "revoked" := by
  refine ⟨?_, hrev⟩
  induction ops generalizing ks with
  | nil => exact hk
  | cons op rest ih =>
    show k ∈ List.foldl applyKeyOp (applyKeyOp ks op) rest
    apply ih
    cases op with
    | rotate pub priv alg cb nid now =>
      show k ∈ (rotateKeys ks pub priv alg cb nid now).2
      unfold rotateKeys
      apply List.mem_append_left
      rw [← flipActive_of_revoked k hrev]
      exact List.mem_map_of_mem _ hk
    | revoke kid =>
      show k ∈ revokeKeys ks kid
      unfold revokeKeys
      cases hfind : ks.find? (fun x => x.id == kid) with
      | none => exact hk
      | some _ =>
        have hupd : (if k.id == kid then { k with status := "revoked" } else k) = k := by
          by_cases h : (k.id == kid) = true
          · rw [if_pos h, status_update_self k hrev]
          · rw [if_neg h]
        rw [← hupd]
        exact List.mem_map_of_mem _ hk

/-- C8 witness: a revoked key survives a rotation and two revocations. -/
theorem revoked_key_stays_revoked_witness :
    keyRevokedW ∈ applyKeyOps [keyRevokedW, keyActiveW]
      [KeyOp.rotate "p2" "e2" "RSA" none 99 500, KeyOp.revoke 5, KeyOp.revoke 6] ∧
    keyRevokedW.status = "revoked" :=
  revoked_key_stays_revoked
    [KeyOp.rotate "p2" "e2" "RSA" none 99 500, KeyOp.revoke 5, KeyOp.revoke 6]
    [keyRevokedW, keyActiveW] keyRevokedW (by decide) (by decide)

/-- C10: for a user whose MFA is enabled, authenticateUser with the correct
password reaches the MFA branch, whose first statement reads the undeclared
identifier `mfa_code`; the resulting ReferenceError is caught and reported as
SYSTEM_ERROR, with the state returned exactly as it was — no failed-attempts
reset, no last_login update, no token row — and in particular the call never
succeeds and never returns MFA_REQUIRED. -/
theorem mfa_branch_system_error (db : Db) (creds : Credentials) (ctx : AuthContext)
    (c : ConsumerRec) (u : UserRec) (now : Nat) (js tv : String) (tid : Nat)
    (hun : creds.username ≠ "") (hpw : creds.password ≠ "")
    (hcu : findConsumer db ctx.consumerId = some c) (hca : c.is_active = true)
    (hci : c.allowed_ips = [])
    (hu : findByUsername db creds.username = some u) (hlock : u.is_locked = false)
    (hgood : verifyPassword creds.password u.password_hash = true)
    (hmfa : u.mfa_enabled = true) :
    authenticateUser creds ctx db now js tv tid
      = (⟨false, some "SYSTEM_ERROR", none⟩, db) := by
  unfold authenticateUser
  rw [hcu, hu]
  simp [hun, hpw, hca, hci, hlock, hgood, hmfa]

/-- A user with MFA enabled and the password of `credsGoodW`. -/
def userMfaW : UserRec := ⟨1, "alice", bcryptHash "pw", true, false, 0, true, "totp", none⟩

def credsGoodW : Credentials := ⟨"alice", "pw"⟩

def ctxW : AuthContext := ⟨10, "1.2.3.4", "ua", none⟩

def dbMfaW : Db := ⟨[userMfaW], [consumerW], [], [keyActiveW]⟩

/-- C10 witness: the MFA-enabled login evaluated on a concrete state. -/
theorem mfa_branch_system_error_witness :
    authenticateUser credsGoodW ctxW dbMfaW 1000 "js" "tv" 7
      = (⟨false, some "SYSTEM_ERROR", none⟩, dbMfaW) :=
  mfa_branch_system_error dbMfaW credsGoodW ctxW consumerW userMfaW 1000 "js" "tv" 7
    (by decide) (by decide) (by decide) (by decide) (by decide) (by decide)
    (by decide) (by decide) (by decide)

/-- C5: token verification reads nothing from the provider-key table, so a key
rotation changes no verifyToken outcome — in particular every token that
verified before the rotation still verifies after it — while a login completed
after the rotation stores the rotated-in key's id as the new token row's
provider_key_id. -/
theorem rotation_token_compat (db : Db) (pub priv alg : String) (cb : Option Nat)
    (nid now0 : Nat) :
    (∀ (j : Jwt) (cid now : Nat) (js : String),
      verifyToken j cid (rotateKey db pub priv alg cb nid now0).2 now js
        = verifyToken j cid db now js) ∧
    (∀ (j : Jwt) (cid now : Nat) (js : String),
      (verifyToken j cid db now js).success = true →
      (verifyToken j cid (rotateKey db pub priv alg cb nid now0).2 now js).success
        = true) ∧
    (∀ (creds : Credentials) (ctx : AuthContext) (c : ConsumerRec) (u : UserRec)
        (now : Nat) (js tv : String) (tid : Nat),
      creds.username ≠ "" → creds.password ≠ "" →
      findConsumer (rotateKey db pub priv alg cb nid now0).2 ctx.consumerId = some c →
      c.is_active = true → c.allowed_ips = [] →
      findByUsername (rotateKey db pub priv alg cb nid now0).2 creds.username = some u →
      u.is_locked = false →
      verifyPassword creds.password u.password_hash = true → u.mfa_enabled = false →
      (authenticateUser creds ctx (rotateKey db pub priv alg cb nid now0).2
        now js tv tid).1.success = true ∧
      (authenticateUser creds ctx (rotateKey db pub priv alg cb nid now0).2
        now js tv tid).2.tokens
        = (rotateKey db pub priv alg cb nid now0).2.tokens
          ++ [⟨tid, u.id, c.id, hashData tv, "simulated-signature",
               (rotateKey db pub priv alg cb nid now0).1.id, now + 3600, false, none⟩]) := by
  refine ⟨fun j cid now js => rfl, fun j cid now js h => h, ?_⟩
  intro creds ctx c u now js tv tid hun hpw hcu hca hci hu hlock hgood hmfa
  have hkey2 : findActiveKey (updateUser (rotateKey db pub priv alg cb nid now0).2 u.id
      (fun v => { v with failed_attempts := 0, last_login := some now }))
      = some (rotateKey db pub priv alg cb nid now0).1 :=
    findActiveKey_rotateKey db pub priv alg cb nid now0
  have hmain : authenticateUser creds ctx (rotateKey db pub priv alg cb nid now0).2
      now js tv tid
      = (⟨true, none, some (jwtSign ⟨u.id, u.username, c.name, tid, now, now + 3600⟩ js)⟩,
         { updateUser (rotateKey db pub priv alg cb nid now0).2 u.id
             (fun v => { v with failed_attempts := 0, last_login := some now }) with
           tokens := (rotateKey db pub priv alg cb nid now0).2.tokens
             ++ [⟨tid, u.id, c.id, hashData tv, "simulated-signature",
                  (rotateKey db pub priv alg cb nid now0).1.id, now + 3600, false, none⟩] }) := by
    unfold authenticateUser
    rw [hcu, hu]
    simp [hun, hpw, hca, hci, hlock, hgood, hmfa, hkey2]
    rfl
  exact ⟨by rw [hmain], by rw [hmain]⟩

/-- A user with no MFA, shared by the rotation witness. -/
def userPlainW : UserRec := ⟨1, "alice", bcryptHash "pw", true, false, 0, false, "totp", none⟩

def dbRotW : Db := ⟨[userPlainW], [consumerW], [tokHashA], [keyActiveW]⟩

/-- C5 witness: rotation of a concrete state; the pre-rotation token still
verifies and the post-rotation login records the new key id 99. -/
theorem rotation_token_compat_witness :
    (verifyToken (jwtSign payloadA "s") 10
        (rotateKey dbRotW "p2" "e2" "RSA" none 99 500).2 1000 "s"
      = verifyToken (jwtSign payloadA "s") 10 dbRotW 1000 "s") ∧
    ((verifyToken (jwtSign payloadA "s") 10
        (rotateKey dbRotW "p2" "e2" "RSA" none 99 500).2 1000 "s").success = true) ∧
    ((authenticateUser credsGoodW ctxW (rotateKey dbRotW "p2" "e2" "RSA" none 99 500).2
        1000 "js" "tv" 7).2.tokens
      = (rotateKey dbRotW "p2" "e2" "RSA" none 99 500).2.tokens
        ++ [⟨7, 1, 10, hashData "tv", "simulated-signature", 99, 4600, false, none⟩]) := by
  obtain ⟨h1, h2, h3⟩ := rotation_token_compat dbRotW "p2" "e2" "RSA" none 99 500
  refine ⟨h1 _ _ _ _, h2 _ _ _ _ (by decide), ?_⟩
  exact (h3 credsGoodW ctxW consumerW userPlainW 1000 "js" "tv" 7 (by decide) (by decide)
    (by decide) (by decide) (by decide) (by decide) (by decide) (by decide) (by decide)).2

/-- One wrong-password attempt strictly below the lock threshold:
INVALID_PASSWORD and the failure counter incremented in place. -/
theorem auth_wrong_step (creds : Credentials) (ctx : AuthContext) (db : Db)
    (c : ConsumerRec) (u : UserRec) (now : Nat) (js tv : String) (tid : Nat)
    (hun : creds.username ≠ "") (hpw : creds.password ≠ "")
    (hcu : findConsumer db ctx.consumerId = some c) (hca : c.is_active = true)
    (hci : c.allowed_ips = [])
    (hu : findByUsername db creds.username = some u) (hlock : u.is_locked = false)
    (hbad : verifyPassword creds.password u.password_hash = false)
    (hlt : u.failed_attempts + 1 < 5) :
    authenticateUser creds ctx db now js tv tid =
      (⟨false, some "INVALID_PASSWORD", none⟩,
       updateUser db u.id (fun v => { v with failed_attempts := v.failed_attempts + 1 })) := by
  unfold authenticateUser
  rw [hcu, hu]
  have h5 : ¬ (u.failed_attempts + 1 ≥ 5) := by omega
  simp [hun, hpw, hca, hci, hlock, hbad, h5]

/-- The wrong-password attempt that reaches the threshold: the counter is
incremented, the lock flag set in a second update, and ACCOUNT_LOCKED returned. -/
theorem auth_lock_step (creds : Credentials) (ctx : AuthContext) (db : Db)
    (c : ConsumerRec) (u : UserRec) (now : Nat) (js tv : String) (tid : Nat)
    (hun : creds.username ≠ "") (hpw : creds.password ≠ "")
    (hcu : findConsumer db ctx.consumerId = some c) (hca : c.is_active = true)
    (hci : c.allowed_ips = [])
    (hu : findByUsername db creds.username = some u) (hlock : u.is_locked = false)
    (hbad : verifyPassword creds.password u.password_hash = false)
    (hge : u.failed_attempts + 1 ≥ 5) :
    authenticateUser creds ctx db now js tv tid =
      (⟨false, some "ACCOUNT_LOCKED", none⟩,
       updateUser (updateUser db u.id
           (fun v => { v with failed_attempts := v.failed_attempts + 1 }))
         u.id (fun v => { v with is_locked := true })) := by
  unfold authenticateUser
  rw [hcu, hu]
  simp [hun, hpw, hca, hci, hlock, hbad, hge]

/-- Username lookup after the failed-attempts increment. -/
theorem findByUsername_inc (db : Db) (un : String) (uid : Nat) :
    findByUsername (updateUser db uid
        (fun v => { v with failed_attempts := v.failed_attempts + 1 })) un
      = (findByUsername db un).map (fun v => if v.id == uid then
          { v with failed_attempts := v.failed_attempts + 1 } else v) :=
  findByUsername_updateUser db un uid _ (fun _ => ⟨rfl, rfl⟩)

/-- Username lookup after the lock-flag update. -/
theorem findByUsername_lock (db : Db) (un : String) (uid : Nat) :
    findByUsername (updateUser db uid (fun v => { v with is_locked := true })) un
      = (findByUsername db un).map (fun v => if v.id == uid then
          { v with is_locked := true } else v) :=
  findByUsername_updateUser db un uid _ (fun _ => ⟨rfl, rfl⟩)

/-- C1: a wrong-password attempt against an active, unlocked user whose stored
failed_attempts is 4 returns ACCOUNT_LOCKED and leaves the user locked with
failed_attempts = 5; and, starting from failed_attempts = 0, five consecutive
wrong-password attempts return INVALID_PASSWORD four times, ACCOUNT_LOCKED on
the fifth, and leave the account locked with failed_attempts = 5. -/
theorem auth_five_consecutive_failures_lock
    (db : Db) (creds : Credentials) (ctx : AuthContext) (c : ConsumerRec) (u : UserRec)
    (now : Nat) (js tv : String) (tid : Nat)
    (hun : creds.username ≠ "") (hpw : creds.password ≠ "")
    (hcu : findConsumer db ctx.consumerId = some c) (hca : c.is_active = true)
    (hci : c.allowed_ips = [])
    (hu : findByUsername db creds.username = some u) (hlock : u.is_locked = false)
    (hbad : verifyPassword creds.password u.password_hash = false)
    (hfail : u.failed_attempts = 0) :
    (∀ (db2 : Db) (u2 : UserRec),
      findConsumer db2 ctx.consumerId = some c →
      findByUsername db2 creds.username = some u2 →
      u2.is_locked = false → u2.failed_attempts = 4 →
      verifyPassword creds.password u2.password_hash = false →
      (authenticateUser creds ctx db2 now js tv tid).1
        = ⟨false, some "ACCOUNT_LOCKED", none⟩ ∧
      ∃ w, findByUsername (authenticateUser creds ctx db2 now js tv tid).2 creds.username
          = some w ∧ w.is_locked = true ∧ w.failed_attempts = 5 ∧ w.id = u2.id) ∧
    (∀ k, k < 4 →
      (authenticateUser creds ctx (wrongIter creds ctx now js tv tid k db) now js tv tid).1
        = ⟨false, some "INVALID_PASSWORD", none⟩) ∧
    ((authenticateUser creds ctx (wrongIter creds ctx now js tv tid 4 db) now js tv tid).1
      = ⟨false, some "ACCOUNT_LOCKED", none⟩) ∧
    (∃ w, findByUsername (wrongIter creds ctx now js tv tid 5 db) creds.username = some w ∧
      w.is_locked = true ∧ w.failed_attempts = 5) := by
  have hlockpart : ∀ (db2 : Db) (u2 : UserRec),
      findConsumer db2 ctx.consumerId = some c →
      findByUsername db2 creds.username = some u2 →
      u2.is_locked = false → u2.failed_attempts = 4 →
      verifyPassword creds.password u2.password_hash = false →
      (authenticateUser creds ctx db2 now js tv tid).1
        = ⟨false, some "ACCOUNT_LOCKED", none⟩ ∧
      ∃ w, findByUsername (authenticateUser creds ctx db2 now js tv tid).2 creds.username
          = some w ∧ w.is_locked = true ∧ w.failed_attempts = 5 ∧ w.id = u2.id := by
    intro db2 u2 hcu2 hu2 hlock2 hfail2 hbad2
    have hge : u2.failed_attempts + 1 ≥ 5 := by omega
    have hstep := auth_lock_step creds ctx db2 c u2 now js tv tid
      hun hpw hcu2 hca hci hu2 hlock2 hbad2 hge
    refine ⟨by rw [hstep], ?_⟩
    rw [hstep]
    rw [findByUsername_lock, findByUsername_inc, hu2]
    dsimp only [Option.map]
    refine ⟨_, rfl, ?_, ?_, ?_⟩ <;> simp [hfail2]
  have hinv : ∀ k, k ≤ 4 →
      findConsumer (wrongIter creds ctx now js tv tid k db) ctx.consumerId = some c ∧
      findByUsername (wrongIter creds ctx now js tv tid k db) creds.username
        = some { u with failed_attempts := k } := by
    intro k
    induction k with
    | zero =>
      intro _
      refine ⟨hcu, ?_⟩
      rw [show wrongIter creds ctx now js tv tid 0 db = db from rfl, hu]
      congr 1
      cases u
      dsimp only at hfail
      rw [hfail]
    | succ n ih =>
      intro hn
      obtain ⟨hc1, hu1⟩ := ih (Nat.le_of_succ_le hn)
      have hstep := auth_wrong_step creds ctx (wrongIter creds ctx now js tv tid n db) c
        { u with failed_attempts := n } now js tv tid hun hpw hc1 hca hci hu1 hlock hbad
        (show n + 1 < 5 by omega)
      rw [show wrongIter creds ctx now js tv tid (n + 1) db
        = (authenticateUser creds ctx (wrongIter creds ctx now js tv tid n db)
            now js tv tid).2 from rfl, hstep]
      refine ⟨hc1, ?_⟩
      rw [findByUsername_inc, hu1]
      dsimp only [Option.map]
      simp
  obtain ⟨hc4, hu4⟩ := hinv 4 (by omega)
  refine ⟨hlockpart, ?_, ?_, ?_⟩
  · intro k hk
    obtain ⟨hc1, hu1⟩ := hinv k (by omega)
    rw [auth_wrong_step creds ctx (wrongIter creds ctx now js tv tid k db) c
      { u with failed_attempts := k } now js tv tid hun hpw hc1 hca hci hu1 hlock hbad
      (show k + 1 < 5 by omega)]
  · exact (hlockpart _ _ hc4 hu4 hlock rfl hbad).1
  · exact (let h := (hlockpart _ _ hc4 hu4 hlock rfl hbad).2
      h.elim (fun w hw => ⟨w, hw.1, hw.2.1, hw.2.2.1⟩))

/-- A user starting at failed_attempts = 0. -/
def userZeroW : UserRec := ⟨1, "alice", bcryptHash "pw", true, false, 0, false, "totp", none⟩

def dbLockW : Db := ⟨[userZeroW], [consumerW], [], [keyActiveW]⟩

/-- Wrong-password credentials for `userZeroW`. -/
def credsBadW : Credentials := ⟨"alice", "wrong"⟩

/-- C1 witness: five consecutive wrong-password attempts on a concrete state:
the first returns INVALID_PASSWORD, the fifth returns ACCOUNT_LOCKED, and the
final state holds the user locked with failed_attempts = 5. -/
theorem auth_five_consecutive_failures_lock_witness :
    ((authenticateUser credsBadW ctxW (wrongIter credsBadW ctxW 1000 "js" "tv" 7 0 dbLockW)
        1000 "js" "tv" 7).1 = ⟨false, some "INVALID_PASSWORD", none⟩) ∧
    ((authenticateUser credsBadW ctxW (wrongIter credsBadW ctxW 1000 "js" "tv" 7 4 dbLockW)
        1000 "js" "tv" 7).1 = ⟨false, some "ACCOUNT_LOCKED", none⟩) ∧
    (∃ w, findByUsername (wrongIter credsBadW ctxW 1000 "js" "tv" 7 5 dbLockW) "alice"
        = some w ∧ w.is_locked = true ∧ w.failed_attempts = 5) := by
  obtain ⟨h1, h2, h3, h4⟩ := auth_five_consecutive_failures_lock dbLockW credsBadW ctxW
    consumerW userZeroW 1000 "js" "tv" 7 (by decide) (by decide) (by decide) (by decide)
    (by decide) (by decide) (by decide) (by decide) (by decide)
  exact ⟨h2 0 (by decide), h3, h4⟩
